import Mathlib

/-!
Verification of the pagination, classification and schema-introspection
logic of `duckdbfastapi/main.py`, via a shallow embedding of the module's
functions into Lean.  Python JSON values become the inductive type `Json`,
Python lists become `List`, the DuckDB engine is abstracted as fallible
query results (`Except String _`), and the FastAPI exception wrapping
(`try ... except` raising `HTTPException`) becomes `Except DataAccessError _`.
-/

namespace DuckdbFastapi

/-- A parsed JSON document, mirroring the values `json.load` can produce. -/
inductive Json where
  | null : Json
  | bool : Bool → Json
  | num : Int → Json
  | str : String → Json
  | arr : List Json → Json
  | obj : List (String × Json) → Json

mutual

/-- The inner `count_nested` closure of `_count_json_items` in `main.py`:
a mapping contributes the sum of the recursive counts of its values, a
sequence contributes its own length plus the recursive counts of its
elements, and any scalar contributes 1. -/
def count_nested : Json → Nat
  | .obj kvs => count_nested_obj kvs
  | .arr xs => xs.length + count_nested_list xs
  | .null => 1
  | .bool _ => 1
  | .num _ => 1
  | .str _ => 1

/-- Sum of `count_nested` over the elements of a sequence. -/
def count_nested_list : List Json → Nat
  | [] => 0
  | x :: xs => count_nested x + count_nested_list xs

/-- Sum of `count_nested` over the values of a mapping. -/
def count_nested_obj : List (String × Json) → Nat
  | [] => 0
  | (_, v) :: kvs => count_nested v + count_nested_obj kvs

end

/-- The `isinstance(v, (dict, list))` test of `_count_json_items`. -/
def isCollection : Json → Bool
  | .obj _ => true
  | .arr _ => true
  | _ => false

/-- The `max_nested` computation of `_count_json_items`: for a top-level
list, its length; for a top-level mapping, a running maximum of
`count_nested v` over those values `v` that are themselves mappings or
sequences (starting from 0); 0 for a scalar. -/
def max_nested : Json → Nat
  | .obj kvs =>
      kvs.foldl (fun acc kv => if isCollection kv.2 then Nat.max acc (count_nested kv.2) else acc) 0
  | .arr xs => xs.length
  | _ => 0

/-- `_count_json_items` from `main.py`: returns `(total_count, max_nested)`. -/
def _count_json_items (obj : Json) : Nat × Nat :=
  (count_nested obj, max_nested obj)

/-- The `pagination` sub-object of every paginated response of `main.py`. -/
structure Pagination where
  page : Nat
  page_size : Nat
  total : Nat
  has_next : Bool
  deriving DecidableEq

/-- The response shape of the JSON branch of `read_file` in `main.py`:
a `data` payload, a top-level `count`, and the pagination envelope. -/
structure JsonReadResult where
  payload : Json
  count : Nat
  pagination : Pagination

/-- The list normalization of the non-bypass branch of `read_file`: a
list is used as-is, a mapping or any scalar is wrapped as a
single-element list. -/
def json_data_list (json_data : Json) : List Json :=
  match json_data with
  | .arr xs => xs
  | j => [j]

/-- The JSON branch of `read_file` in `main.py`: parse result `json_data`,
count items, and either return the whole document (small-payload bypass)
or slice the normalized list with offset/limit. -/
def read_json_file (json_data : Json) (page page_size : Nat) : JsonReadResult :=
  let counts := _count_json_items json_data
  let total_count := counts.1
  let mx := counts.2
  if total_count ≤ 100 ∧ mx ≤ 100 then
    { payload := json_data
      count := total_count
      pagination :=
        { page := 1, page_size := total_count, total := total_count, has_next := false } }
  else
    let data_list := json_data_list json_data
    let total := data_list.length
    let offset := (page - 1) * page_size
    let paginated_data := (data_list.drop offset).take page_size
    { payload := .arr paginated_data
      count := paginated_data.length
      pagination :=
        { page := page, page_size := page_size, total := total
          has_next := decide (offset + page_size < total) } }

/-- Written from the spec sentence behind claim C2: the total is the
recursive structural count (mapping = sum over values, sequence = length
plus element counts, scalar = 1), stated via `map`/`sum` rather than the
code's accumulating recursion. -/
def claim_total (j : Json) : Nat :=
  match j with
  | .obj kvs => ((kvs.map fun kv => count_nested kv.2).sum)
  | .arr xs => xs.length + (xs.map count_nested).sum
  | _ => 1

/-- Written from the claim C2 wording: `maxNested` is the length of a
top-level sequence, or, for a top-level mapping, the maximum recursive
count among its values (all of them, scalars included). -/
def claim_max_nested (j : Json) : Nat :=
  match j with
  | .arr xs => xs.length
  | .obj kvs => ((kvs.map fun kv => count_nested kv.2).foldr Nat.max 0)
  | _ => 0

/-- The amended reading of claim C2: for a top-level mapping only the
values that are themselves mappings or sequences enter the maximum
(`0` when there are none); for a top-level sequence its length; `0` for
a scalar. -/
def amended_max_nested (j : Json) : Nat :=
  match j with
  | .arr xs => xs.length
  | .obj kvs =>
      (((kvs.filter fun kv => isCollection kv.2).map fun kv => count_nested kv.2).foldr Nat.max 0)
  | _ => 0

/-- One column of the engine's answer to a probe query: its name, the
engine-reported type (`None` when the driver reports none), and the
successive values of the column in the probed source (a `none` cell is a
SQL NULL). -/
structure EngineColumn where
  name : String
  dtype : Option String
  values : List (Option String)

/-- One element of the `columns_info` list built by `get_column_info` in
`main.py`. -/
structure ColumnInfo where
  column_name : String
  data_type : String
  example_value : String
  deriving DecidableEq

/-- The example-value computation of `get_column_info`: run
`SELECT col ... LIMIT 1` (that is, look at the first value of the
column), take it when there is a row and the value is non-null, and
use the literal string `NULL` otherwise. -/
def example_value_of (values : List (Option String)) : String :=
  match values.head? with
  | some (some v) => v
  | _ => "NULL"

/-- The per-column body of the loop over `conn.description` in
`get_column_info`. -/
def column_info_of (c : EngineColumn) : ColumnInfo :=
  { column_name := c.name
    data_type := c.dtype.getD "unknown"
    example_value := example_value_of c.values }

/-- The response shape of the `_columnnames` endpoints of `main.py`. -/
structure SchemaPage where
  columns : List ColumnInfo
  count : Nat
  pagination : Pagination

/-- `get_column_info` (and the structurally identical
`get_parquet_folder_column_info`) from `main.py`, after the probe has
answered: build one descriptor per engine column, then slice the column
list with offset/limit. -/
def get_column_info (table : List EngineColumn) (page page_size : Nat) : SchemaPage :=
  let columns_info := table.map column_info_of
  let total := columns_info.length
  let offset := (page - 1) * page_size
  let paginated_columns := (columns_info.drop offset).take page_size
  { columns := paginated_columns
    count := paginated_columns.length
    pagination :=
      { page := page, page_size := page_size, total := total
        has_next := decide (offset + page_size < total) } }

/-- Written from the claim C8 wording: the example value is the
stringification of the first non-null value of the column, or the
literal `NULL` when no non-null value is present. -/
def claim_example_value (values : List (Option String)) : String :=
  match (values.filterMap id).head? with
  | some v => v
  | none => "NULL"

/-- The error raised by the endpoint handlers of `main.py`: an
`HTTPException` whose detail wraps the message of the underlying
engine or parse failure. -/
inductive DataAccessError where
  | wrap : String → DataAccessError
  deriving DecidableEq

/-- The rows and result-descriptor columns the engine returns for a
`SELECT * ... LIMIT ... OFFSET ...` query. -/
structure EngineResult where
  rows : List (List (Option String))
  cols : List String

/-- The response shape of the tabular branches of `read_file` and of
`read_parquet_folder` in `main.py`. -/
structure TablePage where
  data : List (List (String × Option String))
  columns : List String
  count : Nat
  pagination : Pagination

/-- The engine-backed branches of `read_file` (CSV, TSV/TXT, Parquet)
and `read_parquet_folder` in `main.py`, which share one structure: a
`COUNT(*)` query, then a `LIMIT/OFFSET` query, rows zipped with the
column names, and the whole `try` body's failure wrapped into the
endpoint error. -/
def read_engine_file (count_query : Except String (List (List Nat)))
    (data_query : Nat → Nat → Except String EngineResult)
    (page page_size : Nat) : Except DataAccessError TablePage :=
  match count_query with
  | .error e => .error (.wrap e)
  | .ok total_result =>
      let total_count :=
        match total_result.head? with
        | some r => r.headD 0
        | none => 0
      let offset := (page - 1) * page_size
      match data_query page_size offset with
      | .error e => .error (.wrap e)
      | .ok res =>
          let columns := res.cols
          let data_list := res.rows.map fun row => columns.zip row
          .ok { data := data_list
                columns := columns
                count := data_list.length
                pagination :=
                  { page := page, page_size := page_size, total := total_count
                    has_next := decide (offset + page_size < total_count) } }

/-- The JSON branch of `read_file` as an endpoint: a failing
`json.load` is wrapped into the endpoint error, a successful parse is
paged by `read_json_file`. -/
def read_json_endpoint (parse_result : Except String Json) (page page_size : Nat) :
    Except DataAccessError JsonReadResult :=
  match parse_result with
  | .error e => .error (.wrap e)
  | .ok j => .ok (read_json_file j page page_size)

/-- The `_columnnames` endpoints as a whole: a failing probe (or a
failing per-column example query, folded into the probe result) is
wrapped into the endpoint error, a successful probe is paged by
`get_column_info`. -/
def get_column_info_endpoint (probe : Except String (List EngineColumn))
    (page page_size : Nat) : Except DataAccessError SchemaPage :=
  match probe with
  | .error e => .error (.wrap e)
  | .ok table => .ok (get_column_info table page page_size)

/-- A filesystem entry as `main.py` observes it through `pathlib`: a
regular file carries its name and its `suffix`, a directory carries its
name and its direct children. -/
inductive FsEntry where
  | file : String → String → FsEntry
  | dir : String → List FsEntry → FsEntry

/-- The display name of an entry (`item.name`). -/
def FsEntry.name : FsEntry → String
  | .file n _ => n
  | .dir n _ => n

/-- The extension of an entry (`item.suffix`); only consulted on files. -/
def FsEntry.ext : FsEntry → String
  | .file _ s => s
  | .dir _ _ => ""

/-- The `item.is_file()` test. -/
def FsEntry.isFile : FsEntry → Bool
  | .file _ _ => true
  | .dir _ _ => false

/-- The resource kinds of the specification's data model. -/
inductive Kind where
  | JsonFile
  | CsvFile
  | TsvOrTextFile
  | ParquetFile
  | ParquetFolder
  | PlainFolder
  | Unsupported
  deriving DecidableEq

/-- The suffix dispatch of `_create_endpoints`/`read_file` in `main.py`
as a kind: the case-sensitive allow-list decides the file kind, any
other extension yields `Unsupported`. -/
def file_kind_of_ext (s : String) : Kind :=
  if s = ".json" then .JsonFile
  else if s = ".csv" then .CsvFile
  else if s = ".tsv" then .TsvOrTextFile
  else if s = ".txt" then .TsvOrTextFile
  else if s = ".parquet" then .ParquetFile
  else .Unsupported

/-- `_has_parquet_files` from `main.py`: a non-directory never
qualifies; a directory qualifies when any direct child is a file whose
suffix is `.parquet`. -/
def _has_parquet_files : FsEntry → Bool
  | .file _ _ => false
  | .dir _ children => children.any fun f => f.isFile && f.ext == ".parquet"

/-- The classification performed by `_create_endpoints`: files by the
extension allow-list, directories by `_has_parquet_files`. -/
def classify (e : FsEntry) : Kind :=
  match e with
  | .file _ s => file_kind_of_ext s
  | .dir _ _ => if _has_parquet_files e then .ParquetFolder else .PlainFolder

/-- The guard under which `_create_endpoints` registers a data route for
an entry: every directory gets one, a file only when its suffix is in
the allow-list. -/
def creates_endpoint : FsEntry → Bool
  | .file _ s => decide (s ∈ ([".json", ".csv", ".tsv", ".txt", ".parquet"] : List String))
  | .dir _ _ => true

/-- The name resolution `data_path / item` plus `item_path.exists()`
used by `_get_items_to_process`: the first direct child carrying the
requested name, if any. -/
def find_entry (children : List FsEntry) (n : String) : Option FsEntry :=
  children.find? fun c => c.name == n

/-- The ordering used by `sorted(data_path.iterdir())`: paths with a
common parent compare by name. -/
def by_name_le (a b : FsEntry) : Bool :=
  decide (a.name ≤ b.name)

/-- `_get_items_to_process` from `main.py`: with a (non-empty, Python
truthiness) explicit list, resolve each name and keep the ones that
exist; otherwise take the directory's direct children in sorted order. -/
def _get_items_to_process (children : List FsEntry)
    (specific_items : Option (List String)) : List FsEntry :=
  match specific_items with
  | some items =>
      if items.isEmpty then List.mergeSort children by_name_le
      else items.filterMap fun n => find_entry children n
  | none => List.mergeSort children by_name_le

/-- The startup failures of `run_fastapi` in `main.py`: an invalid data
path (`_get_data_path` raising) or an empty catalog (`if not items`). -/
inductive ConfigurationError where
  | invalidDataPath : ConfigurationError
  | emptyCatalog : ConfigurationError
  deriving DecidableEq

/-- The catalog-building part of `run_fastapi` in `main.py`: resolve the
data path (must be a directory), collect the items, and fail when the
resulting catalog is empty. -/
def run_fastapi_catalog (data_path : FsEntry) (specific_items : Option (List String)) :
    Except ConfigurationError (List FsEntry) :=
  match data_path with
  | .file _ _ => .error .invalidDataPath
  | .dir _ children =>
      let items := _get_items_to_process children specific_items
      if items.isEmpty then .error .emptyCatalog else .ok items

/-- Python's single-character `str.replace` as a character map. -/
def replace_char (old new : Char) (s : List Char) : List Char :=
  s.map fun c => if c = old then new else c

/-- Python's `str.lower()` on the ASCII range, applied characterwise. -/
def py_lower (s : List Char) : List Char :=
  s.map Char.toLower

/-- The resource-key derivation of `_create_endpoints` in `main.py`:
`item.name.lower().replace(" ", "_").replace("-", "_")`. -/
def derive_key (name : List Char) : List Char :=
  replace_char '-' '_' (replace_char ' ' '_' (py_lower name))

/-- The per-character action of `derive_key`: lower the character, then
turn a space into an underscore, then turn a hyphen into an underscore. -/
def key_char (c : Char) : Char :=
  let l := Char.toLower c
  let s := if l = ' ' then '_' else l
  if s = '-' then '_' else s

/-! Helper lemmas. -/

theorem count_nested_list_eq_sum (xs : List Json) :
    count_nested_list xs = (xs.map count_nested).sum := by
  induction xs with
  | nil => rfl
  | cons x xs ih => simp [count_nested_list, ih]

theorem count_nested_obj_eq_sum (kvs : List (String × Json)) :
    count_nested_obj kvs = ((kvs.map fun kv => count_nested kv.2).sum) := by
  induction kvs with
  | nil => rfl
  | cons kv kvs ih =>
      cases kv
      simp [count_nested_obj, ih]

theorem count_nested_eq_claim_total (j : Json) : count_nested j = claim_total j := by
  cases j <;>
    simp [count_nested, claim_total, count_nested_list_eq_sum, count_nested_obj_eq_sum]

theorem foldl_max_filter {α : Type} (p : α → Bool) (f : α → Nat) (l : List α) (a : Nat) :
    l.foldl (fun acc x => if p x then Nat.max acc (f x) else acc) a
      = Nat.max a (((l.filter p).map f).foldr Nat.max 0) := by
  induction l generalizing a with
  | nil => simp
  | cons x l ih =>
      cases h : p x <;> simp [h, ih, List.filter_cons, Nat.max_assoc]

theorem max_nested_eq_amended (j : Json) : max_nested j = amended_max_nested j := by
  cases j <;> simp [max_nested, amended_max_nested]
  rw [foldl_max_filter]
  simp

/-! Claim theorems. -/

/-- C2, counterexample: on the document `{"a": 1}` the code returns
`maxNested = 0` (the loop only looks at values that are mappings or
sequences), while the claim's reading — the maximum recursive count
among all values of the mapping — gives 1. -/
theorem c2_structural_count_counterexample :
    _count_json_items (Json.obj [("a", Json.num 1)])
      ≠ (claim_total (Json.obj [("a", Json.num 1)]),
         claim_max_nested (Json.obj [("a", Json.num 1)])) := by
  decide

/-- C2, amended: `_count_json_items` returns the claimed recursive total
together with the maximum recursive count among the top-level mapping's
values that are themselves mappings or sequences (0 when there are
none; length for a top-level sequence; 0 for a scalar). -/
theorem c2_structural_count_amended (j : Json) :
    _count_json_items j = (claim_total j, amended_max_nested j) := by
  rw [_count_json_items, count_nested_eq_claim_total, max_nested_eq_amended]

/-- C1: whenever the structural total and maxNested are both at most
100, the JSON data-page operation returns the entire parsed document as
the payload for every requested page and page size, with an envelope
reporting page 1, pageSize = total, total = total and hasNext = false. -/
theorem c1_json_bypass_full_document (j : Json) (page page_size : Nat)
    (h1 : (_count_json_items j).1 ≤ 100) (h2 : (_count_json_items j).2 ≤ 100) :
    read_json_file j page page_size =
      { payload := j
        count := (_count_json_items j).1
        pagination :=
          { page := 1
            page_size := (_count_json_items j).1
            total := (_count_json_items j).1
            has_next := false } } := by
  simp only [read_json_file]
  rw [if_pos ⟨h1, h2⟩]

/-- C1 witness: a four-item document requested at page 2 still comes
back whole, with the bypass envelope. -/
theorem c1_json_bypass_full_document_witness :
    read_json_file (Json.arr [Json.num 1, Json.num 2]) 2 5 =
      { payload := Json.arr [Json.num 1, Json.num 2]
        count := 4
        pagination := { page := 1, page_size := 4, total := 4, has_next := false } } :=
  c1_json_bypass_full_document (Json.arr [Json.num 1, Json.num 2]) 2 5
    (by decide) (by decide)

/-- C10: for an empty JSON document (empty list or empty mapping) the
structural count is (0, 0), the bypass fires for every requested page
and page size, and the envelope reports pageSize = 0 — outside the
validated range 1..1000 — with total = 0 and hasNext = false. -/
theorem c10_empty_json_bypass (page page_size : Nat) :
    read_json_file (Json.arr []) page page_size =
      { payload := Json.arr []
        count := 0
        pagination := { page := 1, page_size := 0, total := 0, has_next := false } }
    ∧ read_json_file (Json.obj []) page page_size =
      { payload := Json.obj []
        count := 0
        pagination := { page := 1, page_size := 0, total := 0, has_next := false } }
    ∧ _count_json_items (Json.arr []) = (0, 0)
    ∧ _count_json_items (Json.obj []) = (0, 0)
    ∧ ¬ (1 ≤ (read_json_file (Json.arr []) page page_size).pagination.page_size
          ∧ (read_json_file (Json.arr []) page page_size).pagination.page_size ≤ 1000) := by
  refine ⟨rfl, rfl, rfl, rfl, fun h => ?_⟩
  have h0 : (read_json_file (Json.arr []) page page_size).pagination.page_size = 0 := rfl
  rw [h0] at h
  exact absurd h.1 (by decide)

/-- C10 witness: the empty-list document at page 3 with page size 7
still returns the bypass envelope with pageSize 0. -/
theorem c10_empty_json_bypass_witness :
    read_json_file (Json.arr []) 3 7 =
      { payload := Json.arr []
        count := 0
        pagination := { page := 1, page_size := 0, total := 0, has_next := false } } :=
  (c10_empty_json_bypass 3 7).1

theorem read_json_file_not_bypass (j : Json) (page page_size : Nat)
    (hbp : ¬ ((_count_json_items j).1 ≤ 100 ∧ (_count_json_items j).2 ≤ 100)) :
    read_json_file j page page_size =
      { payload := .arr (((json_data_list j).drop ((page - 1) * page_size)).take page_size)
        count := (((json_data_list j).drop ((page - 1) * page_size)).take page_size).length
        pagination :=
          { page := page
            page_size := page_size
            total := (json_data_list j).length
            has_next :=
              decide ((page - 1) * page_size + page_size < (json_data_list j).length) } } := by
  simp only [read_json_file]
  rw [if_neg hbp]

theorem last_page_arith (N p : Nat) (hp : 1 ≤ p) (hN : 1 ≤ N) :
    min p (N - ((N + p - 1) / p - 1) * p) = (if N % p = 0 then p else N % p)
    ∧ ¬ (((N + p - 1) / p - 1) * p + p < N) := by
  have hqr : p * (N / p) + N % p = N := Nat.div_add_mod N p
  have hrlt : N % p < p := Nat.mod_lt _ (by omega)
  by_cases hr0 : N % p = 0
  · have hq0 : N / p ≠ 0 := by
      intro h0
      rw [h0, Nat.mul_zero] at hqr
      omega
    have hL1 : N + p - 1 = p * (N / p) + (p - 1) := by omega
    have hLval : (N + p - 1) / p = N / p := by
      rw [hL1, Nat.mul_add_div (show 0 < p by omega) (N / p) (p - 1),
        Nat.div_eq_of_lt (show p - 1 < p by omega), Nat.add_zero]
    have hple : p * 1 ≤ p * (N / p) := Nat.mul_le_mul_left p (Nat.pos_of_ne_zero hq0)
    rw [hLval, if_pos hr0, Nat.sub_mul, Nat.one_mul, Nat.mul_comm (N / p) p]
    constructor
    · have hX : N - (p * (N / p) - p) = p := by omega
      rw [hX, Nat.min_self]
    · omega
  · have hL1 : N + p - 1 = p * (N / p + 1) + (N % p - 1) := by
      rw [Nat.mul_succ]
      omega
    have hLval : (N + p - 1) / p = N / p + 1 := by
      rw [hL1, Nat.mul_add_div (show 0 < p by omega) (N / p + 1) (N % p - 1),
        Nat.div_eq_of_lt (show N % p - 1 < p by omega), Nat.add_zero]
    rw [hLval, if_neg hr0, Nat.add_sub_cancel, Nat.mul_comm (N / p) p]
    constructor
    · have hX : N - p * (N / p) = N % p := by omega
      rw [hX]
      exact Nat.min_eq_right (Nat.le_of_lt hrlt)
    · omega

/-- C3: outside the JSON small-payload bypass — non-bypass JSON data
pages and schema (column) pages — the envelope satisfies
`hasNext = (offset + pageSize < total)` and
`count = min(pageSize, max(0, total - offset))` (the Nat truncated
subtraction is exactly `max 0` of the integer difference), with
`offset = (page - 1) * pageSize`. -/
theorem c3_pagination_invariant (j : Json) (table : List EngineColumn)
    (page page_size : Nat) (hpage : 1 ≤ page)
    (hbp : ¬ ((_count_json_items j).1 ≤ 100 ∧ (_count_json_items j).2 ≤ 100)) :
    ((read_json_file j page page_size).pagination.has_next = true
        ↔ (page - 1) * page_size + page_size
            < (read_json_file j page page_size).pagination.total)
    ∧ (read_json_file j page page_size).count
        = min page_size
            ((read_json_file j page page_size).pagination.total - (page - 1) * page_size)
    ∧ ((get_column_info table page page_size).pagination.has_next = true
        ↔ (page - 1) * page_size + page_size
            < (get_column_info table page page_size).pagination.total)
    ∧ (get_column_info table page page_size).count
        = min page_size
            ((get_column_info table page page_size).pagination.total
              - (page - 1) * page_size) := by
  rw [read_json_file_not_bypass j page page_size hbp]
  refine ⟨by simp, by simp [List.length_take, List.length_drop], ?_, ?_⟩
  · simp [get_column_info]
  · simp [get_column_info, List.length_take, List.length_drop]

/-- C3 witness: a 101-element JSON list at page 2 with page size 5 gives
a full page of 5; a one-column schema at page 2 with page size 5 gives
an empty page. -/
theorem c3_pagination_invariant_witness :
    (read_json_file (Json.arr (List.replicate 101 (Json.num 0))) 2 5).count = 5
    ∧ (get_column_info [{ name := "a", dtype := some "INTEGER", values := [some "1"] }] 2 5).count
        = 0 := by
  have h := c3_pagination_invariant (Json.arr (List.replicate 101 (Json.num 0)))
    [{ name := "a", dtype := some "INTEGER", values := [some "1"] }] 2 5
    (by decide) (by decide)
  refine ⟨?_, ?_⟩
  · rw [h.2.1]
    decide
  · rw [h.2.2.2]
    decide

/-- C4: for a JSON list of N items with N > 100 and any page size p in
1..1000, the bypass does not apply, the envelope reports total = N, and
the last page ⌈N/p⌉ returns `N mod p` items (or p items when
`N mod p = 0`) with hasNext = false. -/
theorem c4_json_last_page (xs : List Json) (p : Nat)
    (hN : 100 < xs.length) (hp1 : 1 ≤ p) (hp2 : p ≤ 1000) :
    ¬ ((_count_json_items (Json.arr xs)).1 ≤ 100
        ∧ (_count_json_items (Json.arr xs)).2 ≤ 100)
    ∧ (read_json_file (Json.arr xs) ((xs.length + p - 1) / p) p).pagination.total
        = xs.length
    ∧ (read_json_file (Json.arr xs) ((xs.length + p - 1) / p) p).count
        = (if xs.length % p = 0 then p else xs.length % p)
    ∧ (read_json_file (Json.arr xs) ((xs.length + p - 1) / p) p).pagination.has_next
        = false := by
  have hbp : ¬ ((_count_json_items (Json.arr xs)).1 ≤ 100
      ∧ (_count_json_items (Json.arr xs)).2 ≤ 100) := by
    intro h
    have h1 : (_count_json_items (Json.arr xs)).1 = xs.length + count_nested_list xs := rfl
    omega
  have e := read_json_file_not_bypass (Json.arr xs) ((xs.length + p - 1) / p) p hbp
  have harith := last_page_arith xs.length p hp1 (by omega)
  refine ⟨hbp, ?_, ?_, ?_⟩
  · rw [e]
    rfl
  · rw [e]
    simp only [json_data_list, List.length_take, List.length_drop]
    exact harith.1
  · rw [e]
    simp [json_data_list, harith.2]

/-- C4 witness: 150 items with page size 7 — the last page is page 22
and returns 150 mod 7 = 3 items with hasNext = false and total 150. -/
theorem c4_json_last_page_witness :
    (read_json_file (Json.arr (List.replicate 150 (Json.num 0)))
        (((List.replicate 150 (Json.num 0)).length + 7 - 1) / 7) 7).count = 3
    ∧ (read_json_file (Json.arr (List.replicate 150 (Json.num 0)))
        (((List.replicate 150 (Json.num 0)).length + 7 - 1) / 7) 7).pagination.total = 150
    ∧ (read_json_file (Json.arr (List.replicate 150 (Json.num 0)))
        (((List.replicate 150 (Json.num 0)).length + 7 - 1) / 7) 7).pagination.has_next
        = false := by
  have h := c4_json_last_page (List.replicate 150 (Json.num 0)) 7
    (by simp) (by omega) (by omega)
  refine ⟨?_, ?_, ?_⟩
  · rw [h.2.2.1]
    simp
  · rw [h.2.1]
    simp
  · exact h.2.2.2

theorem char_toNat_ofNat_valid (m : Nat) (h : m.isValidChar) : (Char.ofNat m).toNat = m := by
  rw [Char.ofNat, dif_pos h]
  rfl

theorem toLower_toNat_of_upper (c : Char) (h1 : 65 ≤ c.toNat) (h2 : c.toNat ≤ 90) :
    (Char.toLower c).toNat = c.toNat + 32 := by
  unfold Char.toLower
  rw [if_pos ⟨h1, h2⟩]
  exact char_toNat_ofNat_valid _ (Or.inl (by omega))

theorem toLower_eq_self (c : Char) (h : ¬ (65 ≤ c.toNat ∧ c.toNat ≤ 90)) :
    Char.toLower c = c := by
  unfold Char.toLower
  rw [if_neg h]

theorem char_ne_of_toNat_ne (c d : Char) (h : c.toNat ≠ d.toNat) : c ≠ d :=
  fun he => h (congrArg Char.toNat he)

theorem derive_key_eq_map (s : List Char) : derive_key s = s.map key_char := by
  simp only [derive_key, replace_char, py_lower, List.map_map]
  rfl

theorem key_char_idem (c : Char) : key_char (key_char c) = key_char c := by
  by_cases hup : 65 ≤ c.toNat ∧ c.toNat ≤ 90
  · have hl := toLower_toNat_of_upper c hup.1 hup.2
    have hsp : Char.toLower c ≠ ' ' :=
      char_ne_of_toNat_ne _ _ (by rw [hl]; have h32 : (' ' : Char).toNat = 32 := rfl; omega)
    have hhy : Char.toLower c ≠ '-' :=
      char_ne_of_toNat_ne _ _ (by rw [hl]; have h45 : ('-' : Char).toNat = 45 := rfl; omega)
    have hkc : key_char c = Char.toLower c := by
      simp [key_char, hsp, hhy]
    rw [hkc]
    have hnup : ¬ (65 ≤ (Char.toLower c).toNat ∧ (Char.toLower c).toNat ≤ 90) := by omega
    have hdl : Char.toLower (Char.toLower c) = Char.toLower c := toLower_eq_self _ hnup
    simp [key_char, hdl, hsp, hhy]
  · have hl : Char.toLower c = c := toLower_eq_self c hup
    by_cases hsp : c = ' '
    · subst hsp
      decide
    · by_cases hhy : c = '-'
      · subst hhy
        decide
      · have hkc : key_char c = c := by
          simp [key_char, hl, hsp, hhy]
        rw [hkc, hkc]

/-- C7: the resource-key derivation — lower-casing the name and then
replacing every space and every hyphen with an underscore — is
idempotent: applying it to its own output changes nothing.  (As a Lean
function it is pure by construction.) -/
theorem c7_derive_key_idempotent (s : List Char) :
    derive_key (derive_key s) = derive_key s := by
  rw [derive_key_eq_map, derive_key_eq_map]
  induction s with
  | nil => rfl
  | cons a t ih => simp [List.map_cons, key_char_idem, ih]

theorem has_parquet_iff (nm : String) (children : List FsEntry) :
    _has_parquet_files (.dir nm children) = true
      ↔ ∃ c ∈ children, c.isFile = true ∧ c.ext = ".parquet" := by
  simp [_has_parquet_files, List.any_eq_true, Bool.and_eq_true, beq_iff_eq]

/-- C5: classification is deterministic and total (every entry maps to
exactly one kind); a regular file's kind follows the case-sensitive
extension allow-list, any other extension is `Unsupported` and no data
route is registered for it; a directory is `ParquetFolder` iff at least
one direct child is a file with extension `.parquet`, so a directory
with zero parquet children — whatever other files it holds — is never
`ParquetFolder`. -/
theorem c5_classification (e0 : FsEntry) (n s nm : String) (children : List FsEntry) :
    (∃! k, classify e0 = k)
    ∧ classify (.file n ".json") = .JsonFile
    ∧ classify (.file n ".csv") = .CsvFile
    ∧ classify (.file n ".tsv") = .TsvOrTextFile
    ∧ classify (.file n ".txt") = .TsvOrTextFile
    ∧ classify (.file n ".parquet") = .ParquetFile
    ∧ (s ∉ ([".json", ".csv", ".tsv", ".txt", ".parquet"] : List String) →
        classify (.file n s) = .Unsupported ∧ creates_endpoint (.file n s) = false)
    ∧ (classify (.dir nm children) = .ParquetFolder
        ↔ ∃ c ∈ children, c.isFile = true ∧ c.ext = ".parquet")
    ∧ ((¬ ∃ c ∈ children, c.isFile = true ∧ c.ext = ".parquet") →
        classify (.dir nm children) ≠ .ParquetFolder) := by
  have hiff : classify (.dir nm children) = .ParquetFolder
      ↔ ∃ c ∈ children, c.isFile = true ∧ c.ext = ".parquet" := by
    rw [← has_parquet_iff nm children]
    simp only [classify]
    by_cases hp : _has_parquet_files (.dir nm children) = true
    · simp [hp]
    · simp [hp]
  refine ⟨⟨classify e0, rfl, fun y hy => hy.symm⟩, rfl, rfl, rfl, rfl, rfl, ?_, hiff, ?_⟩
  · intro h
    simp only [List.mem_cons, List.not_mem_nil, or_false, not_or] at h
    obtain ⟨h1, h2, h3, h4, h5⟩ := h
    constructor
    · simp [classify, file_kind_of_ext, h1, h2, h3, h4, h5]
    · simp [creates_endpoint, h1, h2, h3, h4, h5]
  · intro hno hcl
    exact hno (hiff.mp hcl)

/-- C5 witness: an upper-cased extension is not in the case-sensitive
allow-list and yields no resource, and a directory whose only child is
a non-parquet file is not a `ParquetFolder`. -/
theorem c5_classification_witness :
    classify (.file "data.JSON" ".JSON") = .Unsupported
    ∧ creates_endpoint (.file "data.JSON" ".JSON") = false
    ∧ classify (.dir "d" [.file "a.txt" ".txt"]) ≠ .ParquetFolder := by
  have h := c5_classification (.file "x" ".json") "data.JSON" ".JSON" "d"
    [.file "a.txt" ".txt"]
  obtain ⟨-, -, -, -, -, -, hunsup, -, hnever⟩ := h
  have hu := hunsup (by decide)
  exact ⟨hu.1, hu.2, hnever (by decide)⟩

theorem filterMap_erase_none (f : String → Option FsEntry) (names : List String)
    (n : String) (hn : n ∈ names) (hf : f n = none) :
    names.filterMap f = (names.erase n).filterMap f := by
  induction names with
  | nil => cases hn
  | cons a t ih =>
      by_cases ha : a = n
      · subst ha
        rw [List.erase_cons_head]
        simp [List.filterMap_cons, hf]
      · rw [List.erase_cons_tail (by simp [ha])]
        have hnt : n ∈ t := (List.mem_cons.mp hn).resolve_left fun h => ha h.symm
        simp only [List.filterMap_cons]
        cases hfa : f a <;> simp [ih hnt]

theorem by_name_le_trans (a b c : FsEntry) :
    by_name_le a b → by_name_le b c → by_name_le a c := by
  simp only [by_name_le, decide_eq_true_eq]
  exact le_trans

theorem by_name_le_total (a b : FsEntry) : by_name_le a b || by_name_le b a := by
  simp only [by_name_le, Bool.or_eq_true, decide_eq_true_eq]
  exact le_total a.name b.name

/-- C6: catalog build with an explicit name list silently drops every
name that does not resolve to an existing entry (the result is just the
resolution of the remaining names — no error per missing name); with no
explicit list it returns exactly the data source's direct children in
lexicographic order of entry name; and the caller fails with the
empty-catalog `ConfigurationError` precisely when the resulting catalog
is empty, returning the catalog itself otherwise. -/
theorem c6_catalog_build (children : List FsEntry) (names : List String)
    (n nm : String) (spec : Option (List String)) :
    (n ∈ names → find_entry children n = none →
      _get_items_to_process children (some names)
        = (names.erase n).filterMap fun m => find_entry children m)
    ∧ (_get_items_to_process children none).Perm children
    ∧ List.Pairwise (fun a b : FsEntry => a.name ≤ b.name)
        (_get_items_to_process children none)
    ∧ (run_fastapi_catalog (.dir nm children) spec = .error .emptyCatalog
        ↔ _get_items_to_process children spec = [])
    ∧ (run_fastapi_catalog (.dir nm children) spec
          = .ok (_get_items_to_process children spec)
        ↔ _get_items_to_process children spec ≠ []) := by
  refine ⟨?_, ?_, ?_, ?_, ?_⟩
  · intro hn hf
    have hne : names.isEmpty = false := by
      cases names
      · cases hn
      · rfl
    simp only [_get_items_to_process, hne, Bool.false_eq_true, if_false]
    exact filterMap_erase_none _ names n hn hf
  · exact List.mergeSort_perm children by_name_le
  · have hs := @List.sorted_mergeSort FsEntry by_name_le by_name_le_trans
      by_name_le_total children
    exact hs.imp fun h => by
      simpa [by_name_le, decide_eq_true_eq] using h
  · simp only [run_fastapi_catalog]
    cases he : (_get_items_to_process children spec).isEmpty
    · have hne : _get_items_to_process children spec ≠ [] := List.isEmpty_eq_false.mp he
      simp [he, hne]
    · have heq : _get_items_to_process children spec = [] := List.isEmpty_iff.mp he
      simp [he, heq]
  · simp only [run_fastapi_catalog]
    cases he : (_get_items_to_process children spec).isEmpty
    · have hne : _get_items_to_process children spec ≠ [] := List.isEmpty_eq_false.mp he
      simp [he, hne]
    · have heq : _get_items_to_process children spec = [] := List.isEmpty_iff.mp he
      simp [he, heq]

/-- C6 witness: a missing explicit name is silently dropped, a full
scan lists the children sorted by name, and an empty directory makes
the caller fail with the empty-catalog error. -/
theorem c6_catalog_build_witness :
    (_get_items_to_process [FsEntry.file "b.csv" ".csv", FsEntry.file "a.json" ".json"]
        (some ["missing", "a.json"])).map FsEntry.name = ["a.json"]
    ∧ (_get_items_to_process [FsEntry.file "b.csv" ".csv", FsEntry.file "a.json" ".json"]
        none).map FsEntry.name = ["a.json", "b.csv"]
    ∧ run_fastapi_catalog (.dir "root" ([] : List FsEntry)) none
        = .error .emptyCatalog := by
  have h := c6_catalog_build [FsEntry.file "b.csv" ".csv", FsEntry.file "a.json" ".json"]
    ["missing", "a.json"] "missing" "root" (some ["missing", "a.json"])
  refine ⟨?_, ?_, ?_⟩
  · rw [h.1 (by decide) rfl]
    rfl
  · simp only [_get_items_to_process]
    simp [List.mergeSort, List.splitInTwo, List.merge, by_name_le, FsEntry.name]
    decide
  · simp [run_fastapi_catalog, _get_items_to_process]

/-- C8, counterexample: for a column whose first value is NULL but whose
second value is "5", the code's probe (`SELECT col ... LIMIT 1`, no
non-null filter) yields the sentinel "NULL", while the claim's "first
non-null value" reading yields "5". -/
theorem c8_example_value_counterexample :
    example_value_of [none, some "5"] = "NULL"
    ∧ claim_example_value [none, some "5"] = "5"
    ∧ example_value_of [none, some "5"] ≠ claim_example_value [none, some "5"]
    ∧ (get_column_info
        [{ name := "x", dtype := some "INTEGER", values := [none, some "5"] }] 1 5).columns
        = [{ column_name := "x", data_type := "INTEGER", example_value := "NULL" }] :=
  ⟨rfl, rfl, by decide, rfl⟩

/-- C8, amended: every returned descriptor stems from some engine
column, one descriptor is built per projected column (the envelope
total is the column count), and the example value is the
stringification of the column's FIRST value when that value is present
and non-null, and the literal "NULL" otherwise — in particular the
example value is always a string, never a null. -/
theorem c8_schema_example_amended (table : List EngineColumn) (page page_size : Nat) :
    (table.map column_info_of).length = table.length
    ∧ (get_column_info table page page_size).pagination.total = table.length
    ∧ ∀ c ∈ (get_column_info table page page_size).columns,
        ∃ col ∈ table, c.column_name = col.name
          ∧ c.example_value = example_value_of col.values
          ∧ (∀ v, col.values.head? = some (some v) → c.example_value = v)
          ∧ ((col.values.head? = none ∨ col.values.head? = some none) →
              c.example_value = "NULL") := by
  refine ⟨by simp, by simp [get_column_info], ?_⟩
  intro c hc
  simp only [get_column_info] at hc
  have hc1 : c ∈ table.map column_info_of :=
    List.mem_of_mem_drop (List.mem_of_mem_take hc)
  obtain ⟨col, hcol, hceq⟩ := List.mem_map.mp hc1
  refine ⟨col, hcol, ?_, ?_, ?_, ?_⟩
  · rw [← hceq]
    rfl
  · rw [← hceq]
    rfl
  · intro v hv
    rw [← hceq]
    simp [column_info_of, example_value_of, hv]
  · intro hv
    rw [← hceq]
    rcases hv with hv | hv <;> simp [column_info_of, example_value_of, hv]

/-- C8 witness: a single INTEGER column whose first value is 7 yields
envelope total 1 and the descriptor with example value "7". -/
theorem c8_schema_example_amended_witness :
    (get_column_info
        [{ name := "x", dtype := some "INTEGER", values := [some "7"] }] 1 5).pagination.total
        = 1
    ∧ (get_column_info
        [{ name := "x", dtype := some "INTEGER", values := [some "7"] }] 1 5).columns
        = [{ column_name := "x", data_type := "INTEGER", example_value := "7" }] := by
  have h := c8_schema_example_amended
    [{ name := "x", dtype := some "INTEGER", values := [some "7"] }] 1 5
  exact ⟨h.2.1.trans rfl, rfl⟩

/-- C9: for every modeled resource kind, a failing engine or parse call
makes the endpoint fail with a `DataAccessError` wrapping the
underlying failure, and a successful endpoint result implies every
engine call succeeded and the page is fully assembled (one output row
per engine row — never a partial page). -/
theorem c9_error_wrapping
    (count_query : Except String (List (List Nat)))
    (data_query : Nat → Nat → Except String EngineResult)
    (parse_result : Except String Json)
    (probe : Except String (List EngineColumn))
    (page page_size : Nat) :
    (∀ e, count_query = .error e →
        read_engine_file count_query data_query page page_size = .error (.wrap e))
    ∧ (∀ cr e, count_query = .ok cr →
        data_query page_size ((page - 1) * page_size) = .error e →
        read_engine_file count_query data_query page page_size = .error (.wrap e))
    ∧ (∀ t, read_engine_file count_query data_query page page_size = .ok t →
        ∃ cr res, count_query = .ok cr
          ∧ data_query page_size ((page - 1) * page_size) = .ok res
          ∧ t.columns = res.cols
          ∧ t.data = (res.rows.map fun row => res.cols.zip row)
          ∧ t.count = t.data.length
          ∧ t.data.length = res.rows.length)
    ∧ (∀ e, parse_result = .error e →
        read_json_endpoint parse_result page page_size = .error (.wrap e))
    ∧ (∀ r, read_json_endpoint parse_result page page_size = .ok r →
        ∃ j, parse_result = .ok j ∧ r = read_json_file j page page_size)
    ∧ (∀ e, probe = .error e →
        get_column_info_endpoint probe page page_size = .error (.wrap e))
    ∧ (∀ s, get_column_info_endpoint probe page page_size = .ok s →
        ∃ table, probe = .ok table ∧ s = get_column_info table page page_size) := by
  refine ⟨?_, ?_, ?_, ?_, ?_, ?_, ?_⟩
  · intro e he
    subst he
    rfl
  · intro cr e hc hd
    subst hc
    simp only [read_engine_file]
    rw [hd]
  · intro t ht
    cases hcq : count_query with
    | error e =>
        rw [hcq] at ht
        exact absurd ht (by simp [read_engine_file])
    | ok cr =>
        cases hdq : data_query page_size ((page - 1) * page_size) with
        | error e =>
            rw [hcq] at ht
            simp only [read_engine_file] at ht
            rw [hdq] at ht
            exact absurd ht (by simp)
        | ok res =>
            rw [hcq] at ht
            simp only [read_engine_file] at ht
            rw [hdq] at ht
            simp only [Except.ok.injEq] at ht
            refine ⟨cr, res, rfl, rfl, ?_, ?_, ?_, ?_⟩
            · rw [← ht]
            · rw [← ht]
            · rw [← ht]
            · rw [← ht]
              simp
  · intro e he
    subst he
    rfl
  · intro r hr
    cases hp : parse_result with
    | error e =>
        rw [hp] at hr
        exact absurd hr (by simp [read_json_endpoint])
    | ok j =>
        rw [hp] at hr
        simp only [read_json_endpoint, Except.ok.injEq] at hr
        exact ⟨j, rfl, hr.symm⟩
  · intro e he
    subst he
    rfl
  · intro s hs
    cases hp : probe with
    | error e =>
        rw [hp] at hs
        exact absurd hs (by simp [get_column_info_endpoint])
    | ok table =>
        rw [hp] at hs
        simp only [get_column_info_endpoint, Except.ok.injEq] at hs
        exact ⟨table, rfl, hs.symm⟩

/-- C9 witness: concrete failing engine and parse calls are each
wrapped into the endpoint's `DataAccessError`. -/
theorem c9_error_wrapping_witness :
    read_engine_file (.error "boom") (fun _ _ => .ok { rows := [], cols := [] }) 1 5
      = .error (.wrap "boom")
    ∧ read_json_endpoint (.error "bad json") 1 5 = .error (.wrap "bad json")
    ∧ get_column_info_endpoint (.error "probe failed") 1 5
        = .error (.wrap "probe failed") := by
  have h := c9_error_wrapping (.error "boom") (fun _ _ => .ok { rows := [], cols := [] })
    (.error "bad json") (.error "probe failed") 1 5
  exact ⟨h.1 "boom" rfl, h.2.2.2.1 "bad json" rfl, h.2.2.2.2.2.1 "probe failed" rfl⟩

end DuckdbFastapi
